import Mathlib

/-!
Verification development for the airport-landing scheduling program
(`simulation.py`).  The program is shallowly embedded: real-number
quantities become `ℚ`, pandas DataFrames become lists of records,
Python exceptions become an explicit error type, and every call to the
process-wide random generator becomes an explicit oracle argument.
-/

namespace AirportLanding

/-- Python exceptions that the embedded code can raise:
`keyError` models pandas raising `KeyError` when the `Score` column is
absent, `valueError` models `random.sample` on a population smaller
than the sample size, and `nonTermination` is returned when the fuel
bound of an unbounded `while` loop is exhausted. -/
inductive PyError where
  | keyError
  | valueError
  | nonTermination
deriving DecidableEq

/-- One airplane, mirroring the fields set by `Airplane.__init__`
(`simulation.py` lines 9-20). -/
structure Airplane where
  id : Nat
  fuel_consumption_rate : ℚ
  expected_landing_time : ℚ
  fuel_level : ℚ
  emergency_fuel : ℚ
  fuel_level_final : ℚ
  remaining_flying_time : ℚ
  is_urgent : Bool
deriving DecidableEq

/-- Constructor `Airplane.__init__` (`simulation.py` lines 9-20) with the three
`random.uniform` draws passed in explicitly: the consumption rate, the
expected landing time and the raw fuel draw. -/
def mkAirplane (id : Nat) (fuel_consumption_rate expected_landing_time fuel_level_draw : ℚ) :
    Airplane :=
  let emergency_fuel := fuel_consumption_rate * 60
  let fuel_level := max fuel_level_draw emergency_fuel
  let fuel_level_final := fuel_level - emergency_fuel
  let remaining_flying_time := fuel_level_final / fuel_consumption_rate
  { id := id
    fuel_consumption_rate := fuel_consumption_rate
    expected_landing_time := expected_landing_time
    fuel_level := fuel_level
    emergency_fuel := emergency_fuel
    fuel_level_final := fuel_level_final
    remaining_flying_time := remaining_flying_time
    is_urgent := if fuel_level_final < emergency_fuel ∨ remaining_flying_time < 1 then true
      else false }

/-- The relations between an airplane's fields that `Airplane.__init__`
establishes (together with positivity of the consumption rate, which
`random.uniform(5, 20)` guarantees). -/
def WellFormed (ap : Airplane) : Prop :=
  0 < ap.fuel_consumption_rate ∧
  ap.emergency_fuel = ap.fuel_consumption_rate * 60 ∧
  ap.emergency_fuel ≤ ap.fuel_level ∧
  ap.fuel_level_final = ap.fuel_level - ap.emergency_fuel ∧
  ap.remaining_flying_time = ap.fuel_level_final / ap.fuel_consumption_rate

/-- One row of the landing-schedule DataFrame built by
`schedule_landings`: airplane id, actual landing time, urgency
snapshot, landing strip and (once `evaluate_landing_schedule` has run)
the `Score` column. `score = none` models a row whose `Score` cell was
never written. -/
structure LandingRecord where
  airplaneId : Nat
  actualLandingTime : ℚ
  urgent : Bool
  strip : Nat
  score : Option ℚ
deriving DecidableEq

/-- Stable insertion used by `sortOn`: the new element goes after every
element whose key is less than or equal to its own. -/
def insertR {α : Type} (key : α → ℚ) (x : α) : List α → List α
  | [] => [x]
  | y :: ys => if key x < key y then x :: y :: ys else y :: insertR key x ys

/-- Python's stable ascending `sorted(..., key=...)`. -/
def sortOn {α : Type} (key : α → ℚ) (l : List α) : List α :=
  l.foldl (fun acc x => insertR key x acc) []

/-- The loop of `schedule_landings` (`simulation.py` lines 48-59):
walks the sorted airplane list keeping the three strip-availability
times and the running index used for round-robin strip choice. -/
def scheduleLoop : List Airplane → List ℚ → Nat → List LandingRecord
  | [], _, _ => []
  | ap :: rest, landing_strip_availability, landing_strip_index =>
    let chosen_strip := landing_strip_index % 3
    let next_available_time_with_gap := landing_strip_availability.getD chosen_strip 0 + 3 / 60
    let landing_time := max ap.expected_landing_time next_available_time_with_gap
    let actual_landing_time :=
      if ap.is_urgent = true ∧ ap.remaining_flying_time < landing_time then
        ap.remaining_flying_time
      else landing_time
    { airplaneId := ap.id
      actualLandingTime := actual_landing_time
      urgent := ap.is_urgent
      strip := chosen_strip + 1
      score := none } ::
      scheduleLoop rest (landing_strip_availability.set chosen_strip (actual_landing_time + 3))
        (landing_strip_index + 1)

/-- Function `schedule_landings` (`simulation.py` lines 36-61): urgent airplanes
sorted by remaining flying time first, then the rest sorted by expected
landing time, assigned greedily over three strips starting all
available at time 0. -/
def schedule_landings (airplane_stream : List Airplane) : List LandingRecord :=
  let urgent_airplanes :=
    sortOn (fun x => x.remaining_flying_time) (airplane_stream.filter (fun ap => ap.is_urgent))
  let non_urgent_airplanes :=
    sortOn (fun x => x.expected_landing_time) (airplane_stream.filter (fun ap => !ap.is_urgent))
  scheduleLoop (urgent_airplanes ++ non_urgent_airplanes) [0, 0, 0] 0

/-- Lookup `next((ap for ap in airplane_stream if ap.id == row['Airplane ID']), None)`. -/
def findAirplane (airplane_stream : List Airplane) (i : Nat) : Option Airplane :=
  airplane_stream.find? (fun ap => ap.id == i)

/-- The body of the row loop of `evaluate_landing_schedule`
(`simulation.py` lines 65-71): a row whose airplane id is not found is
left untouched, otherwise its `Score` cell is written. -/
def evalRecord (airplane_stream : List Airplane) (r : LandingRecord) : LandingRecord :=
  match findAirplane airplane_stream r.airplaneId with
  | none => r
  | some airplane =>
    let difference := |airplane.expected_landing_time - r.actualLandingTime|
    let urgency_penalty : ℚ := if airplane.is_urgent = true then 100 else 0
    { r with score := some (1000 - difference - urgency_penalty) }

/-- Function `evaluate_landing_schedule` (`simulation.py` lines 64-74).  It
returns the mutated DataFrame together with `df['Score'].sum()`; the
sum skips absent cells (pandas skips `NaN`), and accessing the `Score`
column when no row has any score models the `KeyError` pandas raises
when the column was never created. -/
def evaluate_landing_schedule (landing_schedule : List LandingRecord)
    (airplane_stream : List Airplane) : Except PyError (List LandingRecord × ℚ) :=
  let updated := landing_schedule.map (evalRecord airplane_stream)
  if updated.all (fun r => r.score.isNone) then .error .keyError
  else .ok (updated, (updated.filterMap (fun r => r.score)).sum)

/-- The row swap `new.iloc[i], new.iloc[j] = new.iloc[j].copy(), new.iloc[i].copy()`
on a copy of the schedule; out-of-range indices never occur at call
sites (the loops and `random.sample` only produce valid ones). -/
def swapRecords (l : List LandingRecord) (i j : Nat) : List LandingRecord :=
  match l[i]?, l[j]? with
  | some a, some b => (l.set i b).set j a
  | _, _ => l

/-- Function `get_successors` (`simulation.py` lines 77-86): identity for
schedules of length at most one, otherwise one verbatim swap per index
pair `i < j`. -/
def get_successors (landing_schedule : List LandingRecord) (airplane_stream : List Airplane) :
    List (List LandingRecord) :=
  if landing_schedule.length ≤ 1 then [landing_schedule]
  else
    (List.range landing_schedule.length).flatMap (fun i =>
      (List.range' (i + 1) (landing_schedule.length - (i + 1))).map (fun j =>
        swapRecords landing_schedule i j))

/-- The urgency recomputation performed in place by both
`hill_climbing_schedule_landings` (lines 264-266) and
`tabu_search_schedule_landings` (lines 385-386). -/
def recomputeUrgency (ap : Airplane) : Airplane :=
  { ap with
    is_urgent :=
      if ap.fuel_level_final < ap.emergency_fuel ∨
          ap.remaining_flying_time < ap.expected_landing_time then true
      else false }

/-- Python's `sorted` on the strip-availability deque. -/
def sortedRats (l : List ℚ) : List ℚ := sortOn (fun x => x) l

/-- The per-row recomputation loop inside `get_Hill_Tabu_successors`
(`simulation.py` lines 120-131): the strip-availability deque starts at
`[0, 0, 0]`, each found row takes the earliest strip, and rows whose
airplane id is not found are skipped entirely (deque untouched). -/
def recompute_schedule (airplane_stream : List Airplane) :
    List LandingRecord → List ℚ → List LandingRecord
  | [], _ => []
  | r :: rest, strip_availability_times =>
    match findAirplane airplane_stream r.airplaneId with
    | none => r :: recompute_schedule airplane_stream rest strip_availability_times
    | some airplane =>
      let current_time := max (strip_availability_times.headD 0) airplane.expected_landing_time
      let difference := |airplane.expected_landing_time - current_time|
      let urgency_penalty : ℚ := if airplane.is_urgent = true then 100 else 0
      let score := 1000 - difference - urgency_penalty
      { r with actualLandingTime := current_time, score := some score } ::
        recompute_schedule airplane_stream rest
          (sortedRats (strip_availability_times.drop 1 ++ [current_time + 3]))

/-- Function `get_Hill_Tabu_successors` (`simulation.py` lines 111-133) with the
`random.sample` draws supplied by `samplePairs`.  `random.sample` on a
schedule of fewer than two rows raises `ValueError` (on the first of
the `num_successors` loop turns, so only when there is at least one). -/
def get_Hill_Tabu_successors (landing_schedule : List LandingRecord)
    (airplane_stream : List Airplane) (samplePairs : Nat → Nat × Nat) (num_successors : Nat) :
    Except PyError (List (List LandingRecord)) :=
  if 0 < num_successors ∧ landing_schedule.length < 2 then .error .valueError
  else
    .ok ((List.range num_successors).map (fun k =>
      let ij := samplePairs k
      recompute_schedule airplane_stream (swapRecords landing_schedule ij.1 ij.2) [0, 0, 0]))

/-- The neighbor scan of `hill_climbing_schedule_landings`
(`simulation.py` lines 285-289): keep the first neighbor achieving the
strictly lowest score, starting from the current state. -/
def hillBest (airplane_stream : List Airplane) :
    List (List LandingRecord) → List LandingRecord × ℚ →
    Except PyError (List LandingRecord × ℚ)
  | [], next => .ok next
  | neighbor :: rest, next =>
    match evaluate_landing_schedule neighbor airplane_stream with
    | .error e => .error e
    | .ok (neighborEval, score) =>
      hillBest airplane_stream rest (if score < next.2 then (neighborEval, score) else next)

/-- The `while True` loop of `hill_climbing_schedule_landings`
(`simulation.py` lines 276-295), bounded by `fuel`; exhausting the fuel
models divergence.  The state is the current schedule, its score, and
the `scores` list created before the loop (which the loop never
touches). -/
def hillLoop (airplane_stream : List Airplane) (samplePairs : Nat → Nat → Nat × Nat) :
    Nat → List LandingRecord × ℚ × List ℚ → Except PyError (List LandingRecord × List ℚ)
  | 0, _ => .error .nonTermination
  | fuel + 1, (landing_schedule, current_score, scores) =>
    match get_Hill_Tabu_successors landing_schedule airplane_stream (samplePairs fuel) 15 with
    | .error e => .error e
    | .ok neighbors =>
      match hillBest airplane_stream neighbors (landing_schedule, current_score) with
      | .error e => .error e
      | .ok (next_state, next_score) =>
        if next_score = current_score then .ok (landing_schedule, scores)
        else hillLoop airplane_stream samplePairs fuel (next_state, next_score, scores)

/-- Function `hill_climbing_schedule_landings` (`simulation.py` lines 260-297):
recompute urgency in place, build and evaluate the initial schedule,
then hill-climb; the returned pair carries the never-appended `scores`
list. -/
def hill_climbing_schedule_landings (airplane_stream : List Airplane)
    (samplePairs : Nat → Nat → Nat × Nat) (fuel : Nat) :
    Except PyError (List LandingRecord × List ℚ) :=
  let stream := airplane_stream.map recomputeUrgency
  let landing_schedule := schedule_landings stream
  match evaluate_landing_schedule landing_schedule stream with
  | .error e => .error e
  | .ok (landing_schedule', current_score) =>
    hillLoop stream samplePairs fuel (landing_schedule', current_score, [])

/-- The temperature-controlled `while T > T_min` loop of
`simulated_annealing_schedule_landings` (`simulation.py` lines
340-350), counting how many turns run.  The body never changes `T`
except for the single `T *= alpha` cooling step, so the count is
independent of the schedule moves and is computed from the temperature
alone; `fuel` bounds the recursion. -/
def saLoop (T_min alpha : ℚ) : ℚ → Nat → Nat
  | _, 0 => 0
  | T, fuel + 1 => if T_min < T then saLoop T_min alpha (T * alpha) fuel + 1 else 0

/-- The iteration count of `simulated_annealing_schedule_landings` with
its constants `T = 1.0`, `T_min = 0.001`, `alpha = 0.9` (lines
336-338). -/
def simulated_annealing_iteration_count (fuel : Nat) : Nat :=
  saLoop (1 / 1000) (9 / 10) 1 fuel

/-- All random draws made by `tabu_search_schedule_landings`, indexed by
the iteration counter `it`: the `random.sample` pairs of each
`get_Hill_Tabu_successors` call, the `random.random()` diversification
coin, and the `random.choice` index. -/
structure SearchOracle where
  samplePairs : Nat → Nat → Nat × Nat
  coin : Nat → ℚ
  choiceIndex : Nat → Nat

/-- The mutable state of the tabu-search loop (`simulation.py` lines
388-392): current schedule, its score, the score history, the tabu
list (schedules stand for their `to_string` representations, which are
injective on our record lists), and the iteration counter. -/
structure TabuState where
  landing_schedule : List LandingRecord
  current_score : ℚ
  scores : List ℚ
  tabu_list : List (List LandingRecord)
  it : Nat
deriving DecidableEq

/-- The neighbor scan of `tabu_search_schedule_landings`
(`simulation.py` lines 403-415): track the best neighbor regardless of
tabu status, and among non-tabu neighbors track the best improving one
while inserting each into the FIFO tabu list. -/
def tabuNeighborFold (airplane_stream : List Airplane) (max_tabu_size : Nat) :
    List (List LandingRecord) →
    List LandingRecord × ℚ → List LandingRecord × ℚ → List (List LandingRecord) →
    Except PyError ((List LandingRecord × ℚ) × (List LandingRecord × ℚ) × List (List LandingRecord))
  | [], best, next, tabu => .ok (best, next, tabu)
  | neighbor :: rest, best, next, tabu =>
    match evaluate_landing_schedule neighbor airplane_stream with
    | .error e => .error e
    | .ok (neighborEval, score) =>
      let best' := if score < best.2 then (neighborEval, score) else best
      if neighbor ∈ tabu then
        tabuNeighborFold airplane_stream max_tabu_size rest best' next tabu
      else
        let next' := if score < next.2 then (neighborEval, score) else next
        let tabu' := tabu ++ [neighbor]
        tabuNeighborFold airplane_stream max_tabu_size rest best' next'
          (if max_tabu_size < tabu'.length then tabu'.drop 1 else tabu')

/-- Lines 417-423: when the tentative next state does not improve, with
probability 0.1 take a uniformly random neighbor (re-evaluated),
otherwise take the round's best neighbor even if tabu. -/
def tabuPickNext (airplane_stream : List Airplane) (oracle : SearchOracle) (st : TabuState)
    (neighbors : List (List LandingRecord)) (best next : List LandingRecord × ℚ) :
    Except PyError (List LandingRecord × ℚ) :=
  if st.current_score ≤ next.2 then
    if oracle.coin st.it < 1 / 10 then
      match
        evaluate_landing_schedule
          (neighbors.getD (oracle.choiceIndex st.it % neighbors.length) []) airplane_stream with
      | .error e => .error e
      | .ok res => .ok res
    else .ok best
  else .ok next

/-- One turn of the tabu-search `while` loop (`simulation.py` lines
394-427).  `scores.append(current_score)` happens once per turn; the
initial tentative next state is the current schedule (whose rows the
`evaluate_landing_schedule` call of line 401 has just rewritten). -/
def tabuIter (airplane_stream : List Airplane) (oracle : SearchOracle) (max_tabu_size : Nat)
    (st : TabuState) : Except PyError TabuState :=
  match get_Hill_Tabu_successors st.landing_schedule airplane_stream
      (oracle.samplePairs st.it) 15 with
  | .error e => .error e
  | .ok neighbors =>
    match evaluate_landing_schedule st.landing_schedule airplane_stream with
    | .error e => .error e
    | .ok (best_solution, best_solution_score) =>
      match tabuNeighborFold airplane_stream max_tabu_size neighbors
          (best_solution, best_solution_score) (best_solution, st.current_score) st.tabu_list with
      | .error e => .error e
      | .ok (best, next, tabu') =>
        match tabuPickNext airplane_stream oracle st neighbors best next with
        | .error e => .error e
        | .ok (next_state, next_score) =>
          .ok { landing_schedule := next_state
                current_score := next_score
                scores := st.scores ++ [st.current_score]
                tabu_list := tabu'
                it := st.it + 1 }

/-- The tabu-search loop `while it < max_iterations`, by recursion on
the number of remaining turns. -/
def tabuLoop (airplane_stream : List Airplane) (oracle : SearchOracle) (max_tabu_size : Nat) :
    Nat → TabuState → Except PyError TabuState
  | 0, st => .ok st
  | remaining + 1, st =>
    match tabuIter airplane_stream oracle max_tabu_size st with
    | .error e => .error e
    | .ok st' => tabuLoop airplane_stream oracle max_tabu_size remaining st'

/-- Function `tabu_search_schedule_landings` (`simulation.py` lines 384-429):
recompute urgency in place, build and evaluate the initial schedule,
run `max_iterations` turns and return the final schedule with the
score history. -/
def tabu_search_schedule_landings (airplane_stream : List Airplane) (oracle : SearchOracle)
    (max_iterations : Nat) (max_tabu_size : Nat) :
    Except PyError (List LandingRecord × List ℚ) :=
  let stream := airplane_stream.map recomputeUrgency
  let landing_schedule := schedule_landings stream
  match evaluate_landing_schedule landing_schedule stream with
  | .error e => .error e
  | .ok (landing_schedule', current_score) =>
    match tabuLoop stream oracle max_tabu_size max_iterations
        { landing_schedule := landing_schedule', current_score := current_score,
          scores := [], tabu_list := [], it := 0 } with
    | .error e => .error e
    | .ok st => .ok (st.landing_schedule, st.scores)

/-! ## Claim C1 -/

/-- C1, as stated, is false: the urgency recomputation performed by
`hill_climbing_schedule_landings` and `tabu_search_schedule_landings`
keeps the fuel disjunct.  For the airplane drawn with rate 1, expected
landing time 0 and raw fuel 60, the recomputed flag is `true` although
`remaining_flying_time < expected_landing_time` fails. -/
theorem C1_counterexample :
    (recomputeUrgency (mkAirplane 1 1 0 60)).is_urgent = true ∧
    ¬ (mkAirplane 1 1 0 60).remaining_flying_time <
        (mkAirplane 1 1 0 60).expected_landing_time := by
  constructor
  · norm_num [mkAirplane, recomputeUrgency]
  · norm_num [mkAirplane]

/-- C1 amended: after `hill_climbing_schedule_landings` or
`tabu_search_schedule_landings` recomputes urgency, `is_urgent` holds
iff `fuel_level_final < emergency_fuel` or
`remaining_flying_time < expected_landing_time` — the fuel disjunct is
kept, only the `< 1` disjunct of the constructor is replaced. -/
theorem C1_thm (ap : Airplane) :
    (recomputeUrgency ap).is_urgent = true ↔
      (ap.fuel_level_final < ap.emergency_fuel ∨
        ap.remaining_flying_time < ap.expected_landing_time) := by
  simp only [recomputeUrgency]
  split <;> simp_all

/-! ## Claim C2 -/

/-- C2: on three non-urgent airplanes with expected landing times 1, 2
and 3 hours (and fuel margins making them non-urgent), starting from
all three strip-availability times at 0, `schedule_landings` assigns
strips 1, 2, 3, each actual landing time equals the expected one, and
`evaluate_landing_schedule` gives each row score 1000 and total 3000. -/
theorem C2_thm :
    (mkAirplane 1 1 1 200).is_urgent = false ∧
    (mkAirplane 2 1 2 200).is_urgent = false ∧
    (mkAirplane 3 1 3 200).is_urgent = false ∧
    schedule_landings [mkAirplane 1 1 1 200, mkAirplane 2 1 2 200, mkAirplane 3 1 3 200] =
      [⟨1, 1, false, 1, none⟩, ⟨2, 2, false, 2, none⟩, ⟨3, 3, false, 3, none⟩] ∧
    evaluate_landing_schedule
        [⟨1, 1, false, 1, none⟩, ⟨2, 2, false, 2, none⟩, ⟨3, 3, false, 3, none⟩]
        [mkAirplane 1 1 1 200, mkAirplane 2 1 2 200, mkAirplane 3 1 3 200] =
      .ok ([⟨1, 1, false, 1, some 1000⟩, ⟨2, 2, false, 2, some 1000⟩,
        ⟨3, 3, false, 3, some 1000⟩], 3000) := by
  refine ⟨?_, ?_, ?_, ?_, ?_⟩
  · norm_num [mkAirplane]
  · norm_num [mkAirplane]
  · norm_num [mkAirplane]
  · norm_num [schedule_landings, scheduleLoop, sortOn, insertR, mkAirplane, max_def]
  · norm_num [evaluate_landing_schedule, evalRecord, findAirplane, mkAirplane,
      List.filterMap_cons]

/-! ## Claim C3 -/

/-- C3: whatever the random draws, as long as the consumption rate is
positive, construction clamps the fuel level up to at least the
emergency reserve, so `fuel_level ≥ emergency_fuel` and
`fuel_level_final ≥ 0`, with `emergency_fuel = rate * 60` and
`fuel_level_final = fuel_level - emergency_fuel`. -/
theorem C3_thm (id : Nat) (rate expected rawFuel : ℚ) (h : 0 < rate) :
    (mkAirplane id rate expected rawFuel).emergency_fuel ≤
      (mkAirplane id rate expected rawFuel).fuel_level ∧
    0 ≤ (mkAirplane id rate expected rawFuel).fuel_level_final ∧
    (mkAirplane id rate expected rawFuel).emergency_fuel = rate * 60 ∧
    (mkAirplane id rate expected rawFuel).fuel_level_final =
      (mkAirplane id rate expected rawFuel).fuel_level -
        (mkAirplane id rate expected rawFuel).emergency_fuel := by
  refine ⟨le_max_right _ _, ?_, rfl, rfl⟩
  simp only [mkAirplane, sub_nonneg]
  exact le_max_right _ _

/-- Witness for C3 at the concrete draw (rate 1, expected 2, raw fuel 200). -/
theorem C3_witness :
    (0 : ℚ) < 1 ∧
    ((mkAirplane 7 1 2 200).emergency_fuel ≤ (mkAirplane 7 1 2 200).fuel_level ∧
      0 ≤ (mkAirplane 7 1 2 200).fuel_level_final ∧
      (mkAirplane 7 1 2 200).emergency_fuel = 1 * 60 ∧
      (mkAirplane 7 1 2 200).fuel_level_final =
        (mkAirplane 7 1 2 200).fuel_level - (mkAirplane 7 1 2 200).emergency_fuel) :=
  ⟨by norm_num, C3_thm 7 1 2 200 (by norm_num)⟩

/-! ## Claim C5 -/

/-- Reindexing the inner-loop lengths of `get_successors`. -/
theorem range_map_sub_sum (n : Nat) :
    ((List.range n).map (fun i => n - (i + 1))).sum = (List.range n).sum := by
  induction n with
  | zero => simp
  | succ n ih =>
    have hmap : (List.range n).map ((fun i => n + 1 - (i + 1)) ∘ Nat.succ) =
        (List.range n).map (fun i => n - (i + 1)) := by
      apply List.map_congr_left
      intro a _
      simp only [Function.comp_apply]
      omega
    conv_lhs => rw [List.range_succ_eq_map]
    rw [List.map_cons, List.map_map, hmap, List.sum_cons, ih, List.range_succ,
      List.sum_append]
    simp
    omega

/-- Gauss sum for `List.range`. -/
theorem two_mul_range_sum (n : Nat) : 2 * (List.range n).sum = n * (n - 1) := by
  induction n with
  | zero => simp
  | succ n ih =>
    rw [List.range_succ, List.sum_append]
    cases n with
    | zero => simp
    | succ m =>
      have h2 : (m + 1 + 1) * (m + 1 + 1 - 1) = (m + 1) * (m + 1 - 1) + 2 * (m + 1) := by
        simp only [Nat.add_sub_cancel]
        ring
      rw [h2]
      simp only [List.sum_cons, List.sum_nil]
      linarith [ih]

/-- C5: on a schedule of at most one row `get_successors` returns just
that schedule; on `n ≥ 2` rows it returns exactly `n * (n - 1) / 2`
successors, each of which is the input with one pair of rows `i < j`
swapped verbatim (in particular no landing time or score is ever
recomputed, since `swapRecords` only exchanges rows). -/
theorem C5_thm (landing_schedule : List LandingRecord) (airplane_stream : List Airplane) :
    (landing_schedule.length ≤ 1 →
      get_successors landing_schedule airplane_stream = [landing_schedule]) ∧
    (2 ≤ landing_schedule.length →
      (get_successors landing_schedule airplane_stream).length =
        landing_schedule.length * (landing_schedule.length - 1) / 2 ∧
      ∀ s ∈ get_successors landing_schedule airplane_stream,
        ∃ i j, i < j ∧ j < landing_schedule.length ∧
          s = swapRecords landing_schedule i j) := by
  constructor
  · intro h
    simp [get_successors, h]
  · intro h
    have hn : ¬ landing_schedule.length ≤ 1 := by omega
    constructor
    · simp only [get_successors, if_neg hn]
      rw [List.length_flatMap]
      have hcomp : (List.range landing_schedule.length).map
          (List.length ∘ fun i =>
            (List.range' (i + 1) (landing_schedule.length - (i + 1))).map (fun j =>
              swapRecords landing_schedule i j)) =
          (List.range landing_schedule.length).map
            (fun i => landing_schedule.length - (i + 1)) := by
        apply List.map_congr_left
        intro a _
        simp [List.length_range']
      rw [hcomp, range_map_sub_sum]
      have := two_mul_range_sum landing_schedule.length
      omega
    · intro s hs
      simp only [get_successors, if_neg hn, List.mem_flatMap, List.mem_map,
        List.mem_range] at hs
      obtain ⟨i, hi, j, hj, rfl⟩ := hs
      rw [List.mem_range'_1] at hj
      exact ⟨i, j, by omega, by omega, rfl⟩

/-- Witness for C5: both branches at concrete schedules of length 1
and 2. -/
theorem C5_witness :
    get_successors [⟨1, 1, false, 1, none⟩] [] = [[⟨1, 1, false, 1, none⟩]] ∧
    (get_successors [⟨1, 1, false, 1, none⟩, ⟨2, 2, false, 2, none⟩] []).length = 1 := by
  refine ⟨(C5_thm [⟨1, 1, false, 1, none⟩] []).1 (by norm_num), ?_⟩
  have h := ((C5_thm [⟨1, 1, false, 1, none⟩, ⟨2, 2, false, 2, none⟩] []).2 (by norm_num)).1
  simpa using h

/-! ## Claim C6 -/

/-- The `while T > T_min` loop runs exactly `n` turns whenever the fuel
bound is at least `n`, the temperature is still above `T_min` for the
first `n` turns, and has fallen to `T_min` or below after `n` cooling
steps. -/
theorem saLoop_count (T_min alpha : ℚ) :
    ∀ (n : Nat) (T : ℚ) (fuel : Nat), n ≤ fuel →
      (∀ k < n, T_min < T * alpha ^ k) → ¬ T_min < T * alpha ^ n →
      saLoop T_min alpha T fuel = n := by
  intro n
  induction n with
  | zero =>
    intro T fuel _ _ hstop
    simp only [pow_zero, mul_one] at hstop
    cases fuel with
    | zero => rfl
    | succ f => simp [saLoop, hstop]
  | succ n ih =>
    intro T fuel hfuel hrun hstop
    cases fuel with
    | zero => omega
    | succ f =>
      have hT : T_min < T := by
        have := hrun 0 (by omega)
        simpa using this
      have hrec : saLoop T_min alpha (T * alpha) f = n := by
        apply ih (T * alpha) f (by omega)
        · intro k hk
          have := hrun (k + 1) (by omega)
          calc T_min < T * alpha ^ (k + 1) := this
          _ = T * alpha * alpha ^ k := by ring
        · intro hcontra
          apply hstop
          calc T_min < T * alpha * alpha ^ n := hcontra
          _ = T * alpha ^ (n + 1) := by ring
      simp [saLoop, hT, hrec]

/-- The loop of `simulated_annealing_schedule_landings` runs exactly 66
turns with its constants: `(9/10)^65 > 1/1000` but
`(9/10)^66 ≤ 1/1000`. -/
theorem sa_count_66 (fuel : Nat) (h : 66 ≤ fuel) :
    simulated_annealing_iteration_count fuel = 66 := by
  apply saLoop_count (1 / 1000) (9 / 10) 66 1 fuel h
  · intro k hk
    have hmono : ((9 : ℚ) / 10) ^ 65 ≤ (9 / 10) ^ k := by
      apply pow_le_pow_of_le_one (by norm_num) (by norm_num) (by omega)
    have h65 : (1 : ℚ) / 1000 < (9 / 10) ^ 65 := by norm_num
    rw [one_mul]
    linarith
  · rw [one_mul]
    norm_num

/-- C6, as stated, is false: with `T = 1.0`, `T_min = 0.001` and
`alpha = 0.9` the simulated-annealing loop executes 66 iterations, not
about 44. -/
theorem C6_counterexample :
    simulated_annealing_iteration_count 100 = 66 ∧ (66 : Nat) ≠ 44 :=
  ⟨sa_count_66 100 (by norm_num), by norm_num⟩

/-- C6 amended: the loop executes exactly 66 iterations before the
condition `T > T_min` fails (for any fuel bound large enough to reach
that point). -/
theorem C6_thm (fuel : Nat) (h : 66 ≤ fuel) :
    simulated_annealing_iteration_count fuel = 66 :=
  sa_count_66 fuel h

/-- Witness for C6 at fuel bound 1000 (the loop stops on its own after
66 turns). -/
theorem C6_witness :
    66 ≤ 1000 ∧ simulated_annealing_iteration_count 1000 = 66 :=
  ⟨by norm_num, C6_thm 1000 (by norm_num)⟩

/-! ## Claim C9 -/

/-- Stable insertion only moves the inserted element to its place. -/
theorem insertR_perm {α : Type} (key : α → ℚ) (x : α) (l : List α) :
    (insertR key x l).Perm (x :: l) := by
  induction l with
  | nil => exact List.Perm.refl _
  | cons y ys ih =>
    simp only [insertR]
    split
    · exact List.Perm.refl _
    · exact (ih.cons y).trans (List.Perm.swap x y ys)

/-- The sorting fold is a permutation of the accumulator and the input. -/
theorem sortOn_foldl_perm {α : Type} (key : α → ℚ) :
    ∀ (l acc : List α), (l.foldl (fun acc x => insertR key x acc) acc).Perm (acc ++ l) := by
  intro l
  induction l with
  | nil => intro acc; simp
  | cons x xs ih =>
    intro acc
    simp only [List.foldl_cons]
    refine (ih (insertR key x acc)).trans ?_
    refine (List.Perm.append_right xs (insertR_perm key x acc)).trans ?_
    exact List.perm_middle.symm

/-- Python's `sorted` returns a permutation of its input. -/
theorem sortOn_perm {α : Type} (key : α → ℚ) (l : List α) : (sortOn key l).Perm l := by
  simpa using sortOn_foldl_perm key l []

/-- The schedule loop emits exactly one row per airplane, carrying its id. -/
theorem scheduleLoop_map_id :
    ∀ (l : List Airplane) (avail : List ℚ) (idx : Nat),
      (scheduleLoop l avail idx).map (fun r => r.airplaneId) = l.map (fun ap => ap.id) := by
  intro l
  induction l with
  | nil => intro avail idx; rfl
  | cons ap rest ih => intro avail idx; simp [scheduleLoop, ih]

/-- The ids of the rows of `schedule_landings` are a permutation of the
ids of the input airplanes. -/
theorem schedule_landings_ids_perm (airplane_stream : List Airplane) :
    ((schedule_landings airplane_stream).map (fun r => r.airplaneId)).Perm
      (airplane_stream.map (fun ap => ap.id)) := by
  simp only [schedule_landings]
  rw [scheduleLoop_map_id]
  refine List.Perm.map _ ?_
  refine List.Perm.trans ?_ (List.filter_append_perm (fun ap => ap.is_urgent) airplane_stream)
  exact (sortOn_perm _ _).append (sortOn_perm _ _)

/-- C9: `schedule_landings` produces exactly one row per input airplane
and the multiset of airplane ids in the schedule equals the multiset of
input ids — scheduling reorders, never drops or duplicates. -/
theorem C9_thm (airplane_stream : List Airplane) :
    (schedule_landings airplane_stream).length = airplane_stream.length ∧
    (((schedule_landings airplane_stream).map (fun r => r.airplaneId) : List Nat) :
        Multiset Nat) =
      ((airplane_stream.map (fun ap => ap.id) : List Nat) : Multiset Nat) := by
  have hperm := schedule_landings_ids_perm airplane_stream
  constructor
  · have := hperm.length_eq
    simpa using this
  · exact Multiset.coe_eq_coe.mpr hperm

/-! ## Claim C4 -/

/-- Construction establishes the field relations of `WellFormed`
whenever the consumption-rate draw is positive. -/
theorem mkAirplane_wellFormed (id : Nat) (rate expected rawFuel : ℚ) (h : 0 < rate) :
    WellFormed (mkAirplane id rate expected rawFuel) :=
  ⟨h, rfl, le_max_right _ _, rfl, rfl⟩

/-- A well-formed airplane has nonnegative remaining flying time. -/
theorem wellFormed_remaining_nonneg (ap : Airplane) (h : WellFormed ap) :
    0 ≤ ap.remaining_flying_time := by
  obtain ⟨hrate, -, hfuel, hfinal, hrem⟩ := h
  rw [hrem, hfinal]
  apply div_nonneg _ (le_of_lt hrate)
  linarith

/-- Reading with `getD` and default 0 stays nonnegative on nonnegative lists. -/
theorem getD_nonneg (avail : List ℚ) (k : Nat) (h : ∀ t ∈ avail, 0 ≤ t) :
    0 ≤ avail.getD k 0 := by
  rw [List.getD_eq_getElem?_getD]
  cases hx : avail[k]? with
  | none => simp
  | some t => simpa using h t (List.getElem?_mem hx)

/-- Every row emitted by the schedule loop has nonnegative landing
time, as long as the remaining flying times and the strip-availability
entries are nonnegative. -/
theorem scheduleLoop_time_nonneg :
    ∀ (l : List Airplane) (avail : List ℚ) (idx : Nat),
      (∀ ap ∈ l, 0 ≤ ap.remaining_flying_time) → (∀ t ∈ avail, 0 ≤ t) →
      ∀ r ∈ scheduleLoop l avail idx, 0 ≤ r.actualLandingTime := by
  intro l
  induction l with
  | nil =>
    intro avail idx _ _ r hr
    simp [scheduleLoop] at hr
  | cons ap rest ih =>
    intro avail idx hrem havail r hr
    have hgap : 0 ≤ avail.getD (idx % 3) 0 + 3 / 60 := by
      have := getD_nonneg avail (idx % 3) havail
      linarith
    have halt : 0 ≤
        (if ap.is_urgent = true ∧ ap.remaining_flying_time <
            max ap.expected_landing_time (avail.getD (idx % 3) 0 + 3 / 60) then
          ap.remaining_flying_time
        else max ap.expected_landing_time (avail.getD (idx % 3) 0 + 3 / 60)) := by
      split
      · exact hrem ap (List.mem_cons_self ap rest)
      · exact le_trans hgap (le_max_right _ _)
    simp only [scheduleLoop, List.mem_cons] at hr
    rcases hr with rfl | hr
    · exact halt
    · refine ih _ (idx + 1) (fun a ha => hrem a (List.mem_cons_of_mem ap ha)) ?_ r hr
      intro t ht
      rcases List.mem_or_eq_of_mem_set ht with h1 | h2
      · exact havail t h1
      · rw [h2]
        linarith

/-- C4: on any stream of airplanes satisfying the construction
invariants, every row of `schedule_landings` has
`actualLandingTime ≥ 0` — including rows clamped down to the airplane's
remaining flying time. -/
theorem C4_thm (airplane_stream : List Airplane)
    (h : ∀ ap ∈ airplane_stream, WellFormed ap) :
    ∀ r ∈ schedule_landings airplane_stream, 0 ≤ r.actualLandingTime := by
  intro r hr
  simp only [schedule_landings] at hr
  refine scheduleLoop_time_nonneg _ [0, 0, 0] 0 ?_ ?_ r hr
  · intro ap hap
    apply wellFormed_remaining_nonneg
    apply h
    rcases List.mem_append.mp hap with h1 | h2
    · have hmem := (sortOn_perm (fun x : Airplane => x.remaining_flying_time)
        (airplane_stream.filter (fun ap => ap.is_urgent))).mem_iff.mp h1
      exact (List.mem_filter.mp hmem).1
    · have hmem := (sortOn_perm (fun x : Airplane => x.expected_landing_time)
        (airplane_stream.filter (fun ap => !ap.is_urgent))).mem_iff.mp h2
      exact (List.mem_filter.mp hmem).1
  · intro t ht
    simp only [List.mem_cons, List.not_mem_nil, or_false] at ht
    rcases ht with rfl | rfl | rfl <;> norm_num

/-- Witness for C4 on the one-airplane stream with rate 1, expected
landing time 2 and raw fuel 200. -/
theorem C4_witness :
    (⟨1, 2, false, 1, none⟩ : LandingRecord) ∈ schedule_landings [mkAirplane 1 1 2 200] ∧
    0 ≤ (⟨1, 2, false, 1, none⟩ : LandingRecord).actualLandingTime := by
  have hmem : (⟨1, 2, false, 1, none⟩ : LandingRecord) ∈
      schedule_landings [mkAirplane 1 1 2 200] := by
    norm_num [schedule_landings, scheduleLoop, sortOn, insertR, mkAirplane, max_def]
  refine ⟨hmem, ?_⟩
  refine C4_thm [mkAirplane 1 1 2 200] ?_ _ hmem
  intro ap hap
  simp only [List.mem_cons, List.not_mem_nil, or_false] at hap
  rw [hap]
  exact mkAirplane_wellFormed 1 1 2 200 (by norm_num)

/-! ## Claim C8 -/

/-- C8, as stated, is false in one corner: if no row's airplane id
matches and no row carries a stale score, the `Score` column was never
created, and `df['Score'].sum()` raises `KeyError` — here on a
one-row schedule evaluated against an empty airplane stream. -/
theorem C8_counterexample :
    evaluate_landing_schedule [⟨1, 0, false, 1, none⟩] [] = .error .keyError := rfl

/-- C8 amended: provided at least one row ends the pass with a score
(freshly computed or stale), the evaluator raises no error, rows whose
airplane id misses are left completely unchanged, and every row whose
id matches gets
`score = 1000 - |expected - actual| - (100 if urgent else 0)`;
when no row has any score, the final column sum fails instead. -/
theorem C8_thm (landing_schedule : List LandingRecord) (airplane_stream : List Airplane)
    (h : ∃ r ∈ landing_schedule.map (evalRecord airplane_stream), r.score.isSome = true) :
    evaluate_landing_schedule landing_schedule airplane_stream =
      .ok (landing_schedule.map (evalRecord airplane_stream),
        ((landing_schedule.map (evalRecord airplane_stream)).filterMap
          (fun r => r.score)).sum) ∧
    (∀ r ∈ landing_schedule, findAirplane airplane_stream r.airplaneId = none →
      evalRecord airplane_stream r = r) ∧
    (∀ r ∈ landing_schedule, ∀ ap, findAirplane airplane_stream r.airplaneId = some ap →
      evalRecord airplane_stream r =
        { r with score := some (1000 - |ap.expected_landing_time - r.actualLandingTime| -
            (if ap.is_urgent = true then 100 else 0)) }) := by
  refine ⟨?_, ?_, ?_⟩
  · simp only [evaluate_landing_schedule]
    rw [if_neg]
    intro hall
    obtain ⟨r, hr, hsome⟩ := h
    have hnone := List.all_eq_true.mp hall r hr
    rw [Option.isNone_iff_eq_none] at hnone
    rw [hnone] at hsome
    simp at hsome
  · intro r _ hnone
    simp [evalRecord, hnone]
  · intro r _ ap hap
    simp [evalRecord, hap]

/-- Witness for C8: a one-row schedule whose id matches the single
airplane gets score 1000 and total 1000. -/
theorem C8_witness :
    evaluate_landing_schedule [⟨1, 1, false, 1, none⟩] [mkAirplane 1 1 1 200] =
      .ok ([⟨1, 1, false, 1, some 1000⟩], 1000) := by
  have h := (C8_thm [⟨1, 1, false, 1, none⟩] [mkAirplane 1 1 1 200]
    (by norm_num [evalRecord, findAirplane, mkAirplane])).1
  rw [h]
  norm_num [evalRecord, findAirplane, mkAirplane, List.filterMap_cons]

/-! ## Claim C10 -/

/-- The hill-climbing loop never touches the `scores` component of its
state: whatever it returns carries the list it was started with. -/
theorem hillLoop_scores (airplane_stream : List Airplane)
    (samplePairs : Nat → Nat → Nat × Nat) :
    ∀ (fuel : Nat) (st : List LandingRecord × ℚ × List ℚ) (df : List LandingRecord)
      (out : List ℚ),
      hillLoop airplane_stream samplePairs fuel st = .ok (df, out) → out = st.2.2 := by
  intro fuel
  induction fuel with
  | zero =>
    intro st df out h
    obtain ⟨sched, cur, scores⟩ := st
    simp [hillLoop] at h
  | succ fuel ih =>
    intro st df out h
    obtain ⟨sched, cur, scores⟩ := st
    simp only [hillLoop] at h
    split at h
    · cases h
    · split at h
      · cases h
      · split at h
        · simp only [Except.ok.injEq, Prod.mk.injEq] at h
          exact h.2.symm
        · have hres := ih _ df out h
          simpa using hres

/-- C10: whenever `hill_climbing_schedule_landings` terminates, the
score-trace component of its result is the empty list — it is created
empty before the loop and no iteration appends to it. -/
theorem C10_thm (airplane_stream : List Airplane) (samplePairs : Nat → Nat → Nat × Nat)
    (fuel : Nat) (df : List LandingRecord) (scores : List ℚ)
    (h : hill_climbing_schedule_landings airplane_stream samplePairs fuel = .ok (df, scores)) :
    scores = [] := by
  simp only [hill_climbing_schedule_landings] at h
  cases he : evaluate_landing_schedule (schedule_landings (airplane_stream.map recomputeUrgency))
      (airplane_stream.map recomputeUrgency) with
  | error e => rw [he] at h; cases h
  | ok p =>
    rw [he] at h
    obtain ⟨df', cur⟩ := p
    exact hillLoop_scores _ _ fuel (df', cur, []) df scores h

/-- Witness for C10: a terminating two-airplane run (the constant swap
oracle finds no improvement, so the loop breaks on its first turn)
returns the empty score trace. -/
theorem C10_witness :
    hill_climbing_schedule_landings [mkAirplane 1 1 1 200, mkAirplane 2 1 2 200]
        (fun _ _ => (0, 1)) 1 =
      .ok ([⟨1, 1, false, 1, some 1000⟩, ⟨2, 2, false, 2, some 1000⟩], []) ∧
    ([] : List ℚ) = [] := by
  have heval : hill_climbing_schedule_landings [mkAirplane 1 1 1 200, mkAirplane 2 1 2 200]
      (fun _ _ => (0, 1)) 1 =
      .ok ([⟨1, 1, false, 1, some 1000⟩, ⟨2, 2, false, 2, some 1000⟩], []) := by
    norm_num [hill_climbing_schedule_landings, hillLoop, hillBest, recomputeUrgency,
      schedule_landings, scheduleLoop, sortOn, insertR, mkAirplane, max_def,
      evaluate_landing_schedule, evalRecord, findAirplane, get_Hill_Tabu_successors,
      recompute_schedule, swapRecords, sortedRats, List.filterMap_cons, List.range_succ]
  exact ⟨heval, C10_thm _ _ 1 _ [] heval⟩

/-! ## Claim C7 -/

/-- Every successful tabu-search iteration appends exactly the current
score to the history. -/
theorem tabuIter_scores (airplane_stream : List Airplane) (oracle : SearchOracle)
    (max_tabu_size : Nat) (st st' : TabuState)
    (h : tabuIter airplane_stream oracle max_tabu_size st = .ok st') :
    st'.scores = st.scores ++ [st.current_score] := by
  simp only [tabuIter] at h
  split at h
  · cases h
  · split at h
    · cases h
    · split at h
      · cases h
      · split at h
        · cases h
        · simp only [Except.ok.injEq] at h
          rw [← h]

/-- The tabu-search loop grows the score history by exactly one entry
per executed turn. -/
theorem tabuLoop_scores_len (airplane_stream : List Airplane) (oracle : SearchOracle)
    (max_tabu_size : Nat) :
    ∀ (remaining : Nat) (st st' : TabuState),
      tabuLoop airplane_stream oracle max_tabu_size remaining st = .ok st' →
      st'.scores.length = st.scores.length + remaining := by
  intro remaining
  induction remaining with
  | zero =>
    intro st st' h
    simp only [tabuLoop] at h
    cases h
    simp
  | succ remaining ih =>
    intro st st' h
    simp only [tabuLoop] at h
    cases hi : tabuIter airplane_stream oracle max_tabu_size st with
    | error e => rw [hi] at h; cases h
    | ok st1 =>
      rw [hi] at h
      have h1 := tabuIter_scores airplane_stream oracle max_tabu_size st st1 hi
      have h2 := ih st1 st' h
      rw [h2, h1]
      simp only [List.length_append, List.length_cons, List.length_nil]
      omega

/-- C7: whenever `tabu_search_schedule_landings` returns, its score
history has exactly one entry per executed loop turn; the loop runs
exactly `max_iterations` turns, so the history length equals (and in
particular never exceeds) `max_iterations`. -/
theorem C7_thm (airplane_stream : List Airplane) (oracle : SearchOracle)
    (max_iterations max_tabu_size : Nat) (df : List LandingRecord) (scores : List ℚ)
    (h : tabu_search_schedule_landings airplane_stream oracle max_iterations max_tabu_size =
      .ok (df, scores)) :
    scores.length = max_iterations ∧ scores.length ≤ max_iterations := by
  simp only [tabu_search_schedule_landings] at h
  split at h
  · cases h
  · rename_i ls' cur heval
    split at h
    · cases h
    · rename_i st hloop
      simp only [Except.ok.injEq, Prod.mk.injEq] at h
      have hlen := tabuLoop_scores_len (airplane_stream.map recomputeUrgency) oracle
        max_tabu_size max_iterations _ st hloop
      rw [← h.2, hlen]
      simp

/-- Witness for C7: a one-iteration two-airplane tabu run returns a
one-entry score history. -/
theorem C7_witness :
    tabu_search_schedule_landings [mkAirplane 1 1 1 200, mkAirplane 2 1 2 200]
        ⟨fun _ _ => (0, 1), fun _ => 1 / 2, fun _ => 0⟩ 1 10 =
      .ok ([⟨1, 1, false, 1, some 1000⟩, ⟨2, 2, false, 2, some 1000⟩], [2000]) ∧
    ([(2000 : ℚ)]).length = 1 ∧ ([(2000 : ℚ)]).length ≤ 1 := by
  have heval : tabu_search_schedule_landings [mkAirplane 1 1 1 200, mkAirplane 2 1 2 200]
      ⟨fun _ _ => (0, 1), fun _ => 1 / 2, fun _ => 0⟩ 1 10 =
      .ok ([⟨1, 1, false, 1, some 1000⟩, ⟨2, 2, false, 2, some 1000⟩], [2000]) := by
    norm_num [tabu_search_schedule_landings, tabuLoop, tabuIter, tabuNeighborFold,
      tabuPickNext, get_Hill_Tabu_successors, recompute_schedule, swapRecords, sortedRats,
      sortOn, insertR, recomputeUrgency, schedule_landings, scheduleLoop,
      evaluate_landing_schedule, evalRecord, findAirplane, mkAirplane, max_def,
      List.filterMap_cons, List.range_succ]
  have hlen := C7_thm [mkAirplane 1 1 1 200, mkAirplane 2 1 2 200]
    ⟨fun _ _ => (0, 1), fun _ => 1 / 2, fun _ => 0⟩ 1 10
    [⟨1, 1, false, 1, some 1000⟩, ⟨2, 2, false, 2, some 1000⟩] [2000] heval
  exact ⟨heval, hlen⟩

end AirportLanding
